import Mathlib

/-!
# Verification of the pgs-tools PGS codec (crate `pgs`)

Shallow embedding of the segment codec (`src/pgs/src/segment.rs`,
`segment/segmentread.rs`, `segment/segmentwrite.rs`) and the display-set
codec (`src/pgs/src/displayset.rs`, `displayset/displaysetread.rs`,
`displayset/displaysetwrite.rs`).

Bytes are modelled as `Nat` values (a well-formed stream holds values below
256); a byte stream is a `List Nat`.  Fallible Rust functions returning
`Result` become `Except`; Rust panics and unreachable control flow become
`Option` (with `none` for a panic).  Integer casts that can truncate
(`as u16` on a payload length) are modelled with explicit `% 65536`.

Note on the source tree: the files of the crate do not agree with each other
on some data types.  `segment.rs` declares eight `Segment` variants with
`CompositionObject.crop : Option<Crop>`, while `segment/segmentread.rs`
constructs a ninth, unified `ObjectDefinition` variant carrying a `Sequence`
tag and decompressed `lines`, and `segment/segmentwrite.rs` matches `crop`
against a three-state enum (`None` / `Implicit` / `Explicit`).  The
embedding uses one umbrella `Segment` type with all nine constructors and a
three-state `Crop` inductive (`Option::None ↦ Crop.None`,
`Option::Some ↦ Crop.Explicit`), so that every function of the tree can be
stated over one vocabulary.  `displayset/displaysetwrite.rs` line 101 reads
a field `co.forced` that no struct in the tree declares; that field copy has
no counterpart here.
-/

namespace segment

/-- The `CompositionState` from segment.rs. -/
inductive CompositionState where
  | EpochStart
  | AcquisitionPoint
  | Normal
deriving DecidableEq

/-- Umbrella crop value.  segment.rs declares `crop: Option<Crop>` with
`Crop { x, y, width, height }`; segmentwrite.rs matches the same field
against `Crop::None`, `Crop::Implicit` and `Crop::Explicit { .. }`.
`None ↦ Crop.None`, `Some ↦ Crop.Explicit`; `Implicit` exists only for the
write-side match. -/
inductive Crop where
  | None
  | Implicit
  | Explicit (x y width height : Nat)
deriving DecidableEq

/-- The `CompositionObject` from segment.rs (fields `object_id`, `window_id`,
`x`, `y`, `crop`; the struct declares no forced-display field). -/
structure CompositionObject where
  object_id : Nat
  window_id : Nat
  x : Nat
  y : Nat
  crop : Crop
deriving DecidableEq

/-- The `PresentationCompositionSegment` from segment.rs. -/
structure PresentationCompositionSegment where
  pts : Nat
  dts : Nat
  width : Nat
  height : Nat
  frame_rate : Nat
  composition_number : Nat
  composition_state : CompositionState
  palette_update_id : Option Nat
  composition_objects : List CompositionObject
deriving DecidableEq

/-- The `WindowDefinition` from segment.rs. -/
structure WindowDefinition where
  id : Nat
  x : Nat
  y : Nat
  width : Nat
  height : Nat
deriving DecidableEq

/-- The `WindowDefinitionSegment` from segment.rs. -/
structure WindowDefinitionSegment where
  pts : Nat
  dts : Nat
  windows : List WindowDefinition
deriving DecidableEq

/-- The `PaletteEntry` from segment.rs. -/
structure PaletteEntry where
  id : Nat
  y : Nat
  cr : Nat
  cb : Nat
  alpha : Nat
deriving DecidableEq

/-- The `PaletteDefinitionSegment` from segment.rs. -/
structure PaletteDefinitionSegment where
  pts : Nat
  dts : Nat
  id : Nat
  version : Nat
  entries : List PaletteEntry
deriving DecidableEq

/-- The `SingleObjectDefinitionSegment` from segment.rs. -/
structure SingleObjectDefinitionSegment where
  pts : Nat
  dts : Nat
  id : Nat
  version : Nat
  width : Nat
  height : Nat
  data : List Nat
deriving DecidableEq

/-- The `InitialObjectDefinitionSegment` from segment.rs. -/
structure InitialObjectDefinitionSegment where
  pts : Nat
  dts : Nat
  id : Nat
  version : Nat
  length : Nat
  width : Nat
  height : Nat
  data : List Nat
deriving DecidableEq

/-- The `MiddleObjectDefinitionSegment` from segment.rs. -/
structure MiddleObjectDefinitionSegment where
  pts : Nat
  dts : Nat
  id : Nat
  version : Nat
  data : List Nat
deriving DecidableEq

/-- The `FinalObjectDefinitionSegment` from segment.rs. -/
structure FinalObjectDefinitionSegment where
  pts : Nat
  dts : Nat
  id : Nat
  version : Nat
  data : List Nat
deriving DecidableEq

/-- The `EndSegment` from segment.rs. -/
structure EndSegment where
  pts : Nat
  dts : Nat
deriving DecidableEq

/-- The `Sequence` enum imported by segment/segmentread.rs (variants
`Single`, `First`, `Last`). -/
inductive Sequence where
  | Single
  | First
  | Last
deriving DecidableEq

/-- The `ObjectDefinitionSegment` struct that segment/segmentread.rs
constructs for kind `0x15`: one unified ODS with a `Sequence` tag and the
RLE-decompressed `lines`.  It is not declared in segment.rs. -/
structure ObjectDefinitionSegment where
  pts : Nat
  dts : Nat
  id : Nat
  version : Nat
  sequence : Sequence
  width : Nat
  height : Nat
  lines : List (List Nat)
deriving DecidableEq

/-- Umbrella `Segment` enum: the eight variants declared in segment.rs plus
the `ObjectDefinition` variant that segment/segmentread.rs constructs. -/
inductive Segment where
  | PresentationComposition (pcs : PresentationCompositionSegment)
  | WindowDefinition (wds : WindowDefinitionSegment)
  | PaletteDefinition (pds : PaletteDefinitionSegment)
  | SingleObjectDefinition (sods : SingleObjectDefinitionSegment)
  | InitialObjectDefinition (iods : InitialObjectDefinitionSegment)
  | MiddleObjectDefinition (mods : MiddleObjectDefinitionSegment)
  | FinalObjectDefinition (fods : FinalObjectDefinitionSegment)
  | ObjectDefinition (ods : ObjectDefinitionSegment)
  | End (es : EndSegment)
deriving DecidableEq

/-- The `ReadError` from segment/segmentread.rs.  `IoError` stands for any
underlying I/O failure; over an in-memory byte list the only such failure is
reading past the end of the stream. -/
inductive ReadError where
  | IoError
  | UnrecognizedMagicNumber (parsed_magic_number : Nat)
  | UnrecognizedKind (parsed_kind : Nat)
  | UnrecognizedCompositionState (parsed_composition_state : Nat)
  | UnrecognizedPaletteUpdateFlag (parsed_palette_update_flag : Nat)
  | UnrecognizedCropFlag (parsed_crop_flag : Nat)
  | UnrecognizedObjectSequenceFlag (parsed_sequence_flag : Nat)
  | InvalidObjectDataLength (parsed_data_length expected_data_length : Nat)
  | IncompleteRleSequence
  | InvalidRleSequence
  | IncompleteRleLine
deriving DecidableEq

/-- The `WriteError` from segment/segmentwrite.rs. -/
inductive WriteError where
  | IoError
  | TooManyCompositionObjects
  | TooManyWindowDefinitions
  | ObjectDataTooLarge
deriving DecidableEq

/-! ## Big-endian byte I/O (the byteorder adapters of §4.A)

Readers take a byte stream and return the value together with the rest of
the stream; reading past the end is the `UnexpectedEof` I/O error. -/

/-- Read one byte. -/
def readU8 : List Nat → Except ReadError (Nat × List Nat)
  | [] => .error .IoError
  | b :: rest => .ok (b, rest)

/-- Read a big-endian 16-bit value. -/
def readU16 (bs : List Nat) : Except ReadError (Nat × List Nat) := do
  let (b1, bs) ← readU8 bs
  let (b2, bs) ← readU8 bs
  .ok (256 * b1 + b2, bs)

/-- Read a big-endian 24-bit value. -/
def readU24 (bs : List Nat) : Except ReadError (Nat × List Nat) := do
  let (b1, bs) ← readU8 bs
  let (b2, bs) ← readU8 bs
  let (b3, bs) ← readU8 bs
  .ok (65536 * b1 + 256 * b2 + b3, bs)

/-- Read a big-endian 32-bit value. -/
def readU32 (bs : List Nat) : Except ReadError (Nat × List Nat) := do
  let (b1, bs) ← readU16 bs
  let (b2, bs) ← readU16 bs
  .ok (65536 * b1 + b2, bs)

/-- Embeds `read_exact` into a buffer of length `n`. -/
def readExact (n : Nat) (bs : List Nat) : Except ReadError (List Nat × List Nat) :=
  if bs.length < n then .error .IoError else .ok (bs.take n, bs.drop n)

/-- Write one byte (the value is truncated as by `as u8`). -/
def writeU8 (n : Nat) : List Nat := [n % 256]

/-- Write a big-endian 16-bit value (truncated as by `as u16`). -/
def writeU16 (n : Nat) : List Nat := [n / 256 % 256, n % 256]

/-- Write a big-endian 24-bit value. -/
def writeU24 (n : Nat) : List Nat := [n / 65536 % 256, n / 256 % 256, n % 256]

/-- Write a big-endian 32-bit value. -/
def writeU32 (n : Nat) : List Nat :=
  [n / 16777216 % 256, n / 65536 % 256, n / 256 % 256, n % 256]

/-! ## Reading (segment/segmentread.rs) -/

/-- The `rle_decompress` from segment/segmentread.rs (lines 371-459), with the
mutable `line` and `output` accumulators made explicit.  The source pushes
single bytes in loops; here each burst is appended as `List.replicate`. -/
def rleDecompressGo : List Nat → List Nat → List (List Nat) →
    Except ReadError (List (List Nat))
  | [], line, output =>
    if line.isEmpty then .ok output else .error .IncompleteRleLine
  | byte_1 :: rest, line, output =>
    if byte_1 = 0x00 then
      match rest with
      | [] => .error .IncompleteRleSequence
      | byte_2 :: rest =>
        if byte_2 = 0x00 then
          rleDecompressGo rest [] (output ++ [line])
        else if byte_2 >>> 6 = 0 then
          rleDecompressGo rest (line ++ List.replicate (byte_2 &&& 0x3F) 0) output
        else if byte_2 >>> 6 = 1 then
          match rest with
          | [] => .error .IncompleteRleSequence
          | byte_3 :: rest =>
            rleDecompressGo rest
              (line ++ List.replicate (((byte_2 &&& 0x3F) <<< 8) ||| byte_3) 0) output
        else if byte_2 >>> 6 = 2 then
          match rest with
          | [] => .error .IncompleteRleSequence
          | byte_3 :: rest =>
            rleDecompressGo rest (line ++ List.replicate (byte_2 &&& 0x3F) byte_3) output
        else if byte_2 >>> 6 = 3 then
          match rest with
          | [] => .error .IncompleteRleSequence
          | byte_3 :: rest =>
            match rest with
            | [] => .error .IncompleteRleSequence
            | byte_4 :: rest =>
              rleDecompressGo rest
                (line ++ List.replicate (((byte_2 &&& 0x3F) <<< 8) ||| byte_3) byte_4) output
        else .error .InvalidRleSequence
    else
      rleDecompressGo rest (line ++ [byte_1]) output

/-- The `rle_decompress` from segment/segmentread.rs. -/
def rle_decompress (input : List Nat) : Except ReadError (List (List Nat)) :=
  rleDecompressGo input [] []

/-- The composition-object loop of `parse_pcs` (segment/segmentread.rs lines
199-241).  The Rust loop tracks the cursor position in `pos`; since the
cursor and `pos` advance in lockstep, `payload.len() - pos` is the length of
the unread rest of the payload.  An iteration whose record check fails reads
nothing but the loop still runs to completion. -/
def parseCompObjs : Nat → List Nat →
    Except ReadError (List CompositionObject × List Nat)
  | 0, rest => .ok ([], rest)
  | n + 1, rest =>
    if 8 ≤ rest.length then do
      let (object_id, rest) ← readU16 rest
      let (window_id, rest) ← readU8 rest
      let (parsed_crop_flag, rest) ← readU8 rest
      let cropped ←
        if parsed_crop_flag = 0x40 then .ok true
        else if parsed_crop_flag = 0x00 then .ok false
        else .error (.UnrecognizedCropFlag parsed_crop_flag)
      let (x, rest) ← readU16 rest
      let (y, rest) ← readU16 rest
      -- For some reason, the U.S. release of Final Fantasy VII: Advent
      -- Children Complete declares that the object is cropped, but then the
      -- segment's payload ends.
      if cropped ∧ 8 ≤ rest.length then do
        let (cx, rest) ← readU16 rest
        let (cy, rest) ← readU16 rest
        let (cw, rest) ← readU16 rest
        let (ch, rest) ← readU16 rest
        let (objs, rest) ← parseCompObjs n rest
        .ok (⟨object_id, window_id, x, y, .Explicit cx cy cw ch⟩ :: objs, rest)
      else do
        let (objs, rest) ← parseCompObjs n rest
        .ok (⟨object_id, window_id, x, y, .None⟩ :: objs, rest)
    else
      parseCompObjs n rest

/-- The `parse_pcs` from segment/segmentread.rs (lines 163-256). -/
def parse_pcs (pts dts : Nat) (payload : List Nat) :
    Except ReadError PresentationCompositionSegment := do
  let (width, input) ← readU16 payload
  let (height, input) ← readU16 input
  let (frame_rate, input) ← readU8 input
  let (composition_number, input) ← readU16 input
  let (parsed_composition_state, input) ← readU8 input
  let composition_state ←
    if parsed_composition_state = 0x00 then .ok CompositionState.Normal
    else if parsed_composition_state = 0x40 then .ok CompositionState.AcquisitionPoint
    else if parsed_composition_state = 0x80 then .ok CompositionState.EpochStart
    else .error (.UnrecognizedCompositionState parsed_composition_state)
  let (parsed_palette_update_flag, input) ← readU8 input
  let (palette_update_id, input) ←
    if parsed_palette_update_flag = 0x00 then do
      let (_, input) ← readU8 input
      .ok ((none : Option Nat), input)
    else if parsed_palette_update_flag = 0x80 then do
      let (pal_id, input) ← readU8 input
      .ok (some pal_id, input)
    else .error (.UnrecognizedPaletteUpdateFlag parsed_palette_update_flag)
  let (comp_obj_count, input) ← readU8 input
  let (composition_objects, _) ← parseCompObjs comp_obj_count input
  .ok { pts := pts, dts := dts, width := width, height := height,
        frame_rate := frame_rate, composition_number := composition_number,
        composition_state := composition_state,
        palette_update_id := palette_update_id,
        composition_objects := composition_objects }

/-- The window loop of `parse_wds`. -/
def parseWindows : Nat → List Nat →
    Except ReadError (List WindowDefinition × List Nat)
  | 0, rest => .ok ([], rest)
  | n + 1, rest => do
    let (id, rest) ← readU8 rest
    let (x, rest) ← readU16 rest
    let (y, rest) ← readU16 rest
    let (width, rest) ← readU16 rest
    let (height, rest) ← readU16 rest
    let (ws, rest) ← parseWindows n rest
    .ok (⟨id, x, y, width, height⟩ :: ws, rest)

/-- The `parse_wds` from segment/segmentread.rs (lines 258-287). -/
def parse_wds (pts dts : Nat) (payload : List Nat) :
    Except ReadError WindowDefinitionSegment := do
  let (count, input) ← readU8 payload
  let (windows, _) ← parseWindows count input
  .ok { pts := pts, dts := dts, windows := windows }

/-- The entry loop of `parse_pds`. -/
def parseEntries : Nat → List Nat →
    Except ReadError (List PaletteEntry × List Nat)
  | 0, rest => .ok ([], rest)
  | n + 1, rest => do
    let (id, rest) ← readU8 rest
    let (y, rest) ← readU8 rest
    let (cr, rest) ← readU8 rest
    let (cb, rest) ← readU8 rest
    let (alpha, rest) ← readU8 rest
    let (es, rest) ← parseEntries n rest
    .ok (⟨id, y, cr, cb, alpha⟩ :: es, rest)

/-- The `parse_pds` from segment/segmentread.rs (lines 289-321).  The entry
count is `(payload.len() - 2) / 5`; for payloads shorter than two bytes the
Rust subtraction would panic in debug mode, while the `Nat` subtraction here
yields zero and the subsequent header reads fail with the I/O error. -/
def parse_pds (pts dts : Nat) (payload : List Nat) :
    Except ReadError PaletteDefinitionSegment := do
  let count := (payload.length - 2) / 5
  let (id, input) ← readU8 payload
  let (version, input) ← readU8 input
  let (entries, _) ← parseEntries count input
  .ok { pts := pts, dts := dts, id := id, version := version, entries := entries }

/-- The `parse_ods` from segment/segmentread.rs (lines 323-369).  Only the
sequence flags `0xC0` (Single), `0x80` (First) and `0x40` (Last) are
recognized; any other flag value, in particular `0x00`, is rejected with
`UnrecognizedObjectSequenceFlag`.  The object data after the 11 header
bytes is RLE-decompressed into `lines`. -/
def parse_ods (pts dts : Nat) (payload : List Nat) :
    Except ReadError ObjectDefinitionSegment := do
  let (id, input) ← readU16 payload
  let (version, input) ← readU8 input
  let (parsed_sequence_flag, input) ← readU8 input
  let sequence ←
    if parsed_sequence_flag = 0xC0 then .ok Sequence.Single
    else if parsed_sequence_flag = 0x80 then .ok Sequence.First
    else if parsed_sequence_flag = 0x40 then .ok Sequence.Last
    else .error (.UnrecognizedObjectSequenceFlag parsed_sequence_flag)
  -- PGS streams record +4 bytes for the object data size, for some reason.
  let (parsed_data_length, input) ← readU24 input
  let expected_data_length := payload.length - 7
  if parsed_data_length ≠ expected_data_length then
    .error (.InvalidObjectDataLength parsed_data_length expected_data_length)
  else do
    let (width, input) ← readU16 input
    let (height, _) ← readU16 input
    let lines ← rle_decompress (payload.drop 11)
    .ok { pts := pts, dts := dts, id := id, version := version,
          sequence := sequence, width := width, height := height, lines := lines }

/-- The `read_segment` from segment/segmentread.rs (lines 134-161).  Returns
the parsed segment together with the unread rest of the stream. -/
def read_segment (bs : List Nat) : Except ReadError (Segment × List Nat) := do
  let (parsed_magic_number, bs) ← readU16 bs
  if parsed_magic_number ≠ 0x5047 then
    .error (.UnrecognizedMagicNumber parsed_magic_number)
  else do
    let (pts, bs) ← readU32 bs
    let (dts, bs) ← readU32 bs
    let (parsed_kind, bs) ← readU8 bs
    let (size, bs) ← readU16 bs
    let (payload, rest) ← readExact size bs
    if parsed_kind = 0x14 then do
      .ok (.PaletteDefinition (← parse_pds pts dts payload), rest)
    else if parsed_kind = 0x15 then do
      .ok (.ObjectDefinition (← parse_ods pts dts payload), rest)
    else if parsed_kind = 0x16 then do
      .ok (.PresentationComposition (← parse_pcs pts dts payload), rest)
    else if parsed_kind = 0x17 then do
      .ok (.WindowDefinition (← parse_wds pts dts payload), rest)
    else if parsed_kind = 0x80 then
      .ok (.End ⟨pts, dts⟩, rest)
    else
      .error (.UnrecognizedKind parsed_kind)

/-! ## Writing (segment/segmentwrite.rs) -/

/-- One composition-object record of `generate_pcs` (segment/segmentwrite.rs
lines 165-183): the flags byte is `0x00` for `Crop::None`, `0x40` for
`Crop::Implicit` and `0x80` for `Crop::Explicit`, and only an `Explicit`
crop appends the four crop fields. -/
def compObjBytes (comp_obj : CompositionObject) : List Nat :=
  writeU16 comp_obj.object_id ++ writeU8 comp_obj.window_id ++
  writeU8 (match comp_obj.crop with
    | .None => 0x00
    | .Implicit => 0x40
    | .Explicit _ _ _ _ => 0x80) ++
  writeU16 comp_obj.x ++ writeU16 comp_obj.y ++
  (match comp_obj.crop with
    | .Explicit x y width height =>
      writeU16 x ++ writeU16 y ++ writeU16 width ++ writeU16 height
    | _ => [])

/-- The `generate_pcs` from segment/segmentwrite.rs (lines 132-186). -/
def generate_pcs (pcs : PresentationCompositionSegment) :
    Except WriteError (List Nat) := do
  let head :=
    writeU16 pcs.width ++ writeU16 pcs.height ++ writeU8 pcs.frame_rate ++
    writeU16 pcs.composition_number ++
    writeU8 (match pcs.composition_state with
      | .Normal => 0x00
      | .AcquisitionPoint => 0x40
      | .EpochStart => 0x80) ++
    (match pcs.palette_update_id with
      | some pal_id => writeU8 0x80 ++ writeU8 pal_id
      | none => writeU8 0x00 ++ writeU8 0)
  if pcs.composition_objects.length ≤ 255 then
    .ok (head ++ writeU8 pcs.composition_objects.length ++
      (pcs.composition_objects.map compObjBytes).flatten)
  else
    .error .TooManyCompositionObjects

/-- The `generate_wds` from segment/segmentwrite.rs (lines 188-207). -/
def generate_wds (wds : WindowDefinitionSegment) : Except WriteError (List Nat) :=
  if wds.windows.length ≤ 255 then
    .ok (writeU8 wds.windows.length ++
      (wds.windows.map (fun window =>
        writeU8 window.id ++ writeU16 window.x ++ writeU16 window.y ++
        writeU16 window.width ++ writeU16 window.height)).flatten)
  else
    .error .TooManyWindowDefinitions

/-- The palette-entry bytes of `generate_pds`. -/
def pdsEntryBytes (entry : PaletteEntry) : List Nat :=
  writeU8 entry.id ++ writeU8 entry.y ++ writeU8 entry.cr ++
  writeU8 entry.cb ++ writeU8 entry.alpha

/-- The `generate_pds` from segment/segmentwrite.rs (lines 209-225). -/
def generate_pds (pds : PaletteDefinitionSegment) : Except WriteError (List Nat) :=
  .ok (writeU8 pds.id ++ writeU8 pds.version ++
    (pds.entries.map pdsEntryBytes).flatten)

/-- The `generate_sods` from segment/segmentwrite.rs (lines 227-248). -/
def generate_sods (ods : SingleObjectDefinitionSegment) :
    Except WriteError (List Nat) := do
  let head := writeU16 ods.id ++ writeU8 ods.version ++ writeU8 0xC0
  if ods.data.length ≤ 16777211 then
    .ok (head ++ writeU24 (ods.data.length + 4) ++
      writeU16 ods.width ++ writeU16 ods.height ++ ods.data)
  else
    .error .ObjectDataTooLarge

/-- The `generate_iods` from segment/segmentwrite.rs (lines 250-271). -/
def generate_iods (ods : InitialObjectDefinitionSegment) :
    Except WriteError (List Nat) := do
  let head := writeU16 ods.id ++ writeU8 ods.version ++ writeU8 0x80
  if ods.length ≤ 16777215 then
    .ok (head ++ writeU24 ods.length ++
      writeU16 ods.width ++ writeU16 ods.height ++ ods.data)
  else
    .error .ObjectDataTooLarge

/-- The `generate_mods` from segment/segmentwrite.rs (lines 273-285): a Middle
ODS payload is the object id, the version, the sequence flag `0x00` and the
raw fragment data. -/
def generate_mods (ods : MiddleObjectDefinitionSegment) :
    Except WriteError (List Nat) :=
  .ok (writeU16 ods.id ++ writeU8 ods.version ++ writeU8 0x00 ++ ods.data)

/-- The `generate_fods` from segment/segmentwrite.rs (lines 287-299). -/
def generate_fods (ods : FinalObjectDefinitionSegment) :
    Except WriteError (List Nat) :=
  .ok (writeU16 ods.id ++ writeU8 ods.version ++ writeU8 0x40 ++ ods.data)

/-- The `write_segment` from segment/segmentwrite.rs (lines 70-129), with the
sink modelled as the returned byte list.  The size field is the payload
length truncated `as u16` (`% 65536`); the full payload follows regardless
of its length.  segmentwrite.rs has no arm for the read side's unified
`ObjectDefinition` variant; that arm is mapped to the I/O error and is not
relied upon by any theorem. -/
def write_segment (seg : Segment) : Except WriteError (List Nat) := do
  let (pts, dts, kind, payload) ←
    match seg with
    | .PresentationComposition pcs => do
      .ok (pcs.pts, pcs.dts, 0x16, ← generate_pcs pcs)
    | .WindowDefinition wds => do
      .ok (wds.pts, wds.dts, 0x17, ← generate_wds wds)
    | .PaletteDefinition pds => do
      .ok (pds.pts, pds.dts, 0x14, ← generate_pds pds)
    | .SingleObjectDefinition sods => do
      .ok (sods.pts, sods.dts, 0x15, ← generate_sods sods)
    | .InitialObjectDefinition iods => do
      .ok (iods.pts, iods.dts, 0x15, ← generate_iods iods)
    | .MiddleObjectDefinition mods => do
      .ok (mods.pts, mods.dts, 0x15, ← generate_mods mods)
    | .FinalObjectDefinition fods => do
      .ok (fods.pts, fods.dts, 0x15, ← generate_fods fods)
    | .ObjectDefinition _ => .error .IoError
    | .End es => .ok (es.pts, es.dts, 0x80, [])
  .ok (writeU16 0x5047 ++ writeU32 pts ++ writeU32 dts ++ writeU8 kind ++
    writeU16 payload.length ++ payload)

end segment

namespace displayset

open segment (CompositionState Crop Segment)

/-- The `Vid<T>` from displayset.rs: versioned identifier, ordered
lexicographically by (id, version) via the derived `Ord`. -/
structure Vid (T : Type) where
  id : T
  version : Nat
deriving DecidableEq

/-- The `Cid` from displayset.rs: compound identifier, ordered lexicographically
by (object_id, window_id) via the derived `Ord`. -/
structure Cid where
  object_id : Nat
  window_id : Nat
deriving DecidableEq

/-- The `Window` from displayset.rs. -/
structure Window where
  x : Nat
  y : Nat
  width : Nat
  height : Nat
deriving DecidableEq

/-- The `PaletteEntry` from displayset.rs (no id field; the id is the map key). -/
structure PaletteEntry where
  y : Nat
  cr : Nat
  cb : Nat
  alpha : Nat
deriving DecidableEq

/-- The `Palette` from displayset.rs. -/
structure Palette where
  entries : List (Nat × PaletteEntry)
deriving DecidableEq

/-- The `Object` from displayset.rs. -/
structure Object where
  width : Nat
  height : Nat
  lines : List (List Nat)
deriving DecidableEq

/-- The `CompositionObject` from displayset.rs: fields `x`, `y`, `crop`
(declared as `Option<Crop>`, embedded with the umbrella `Crop`).  The
struct declares no forced-display field. -/
structure CompositionObject where
  x : Nat
  y : Nat
  crop : Crop
deriving DecidableEq

/-- The `Composition` from displayset.rs. -/
structure Composition where
  number : Nat
  state : CompositionState
  objects : List (Cid × CompositionObject)
deriving DecidableEq

/-- The `DisplaySet` from displayset.rs.  The `BTreeMap` collections are
modelled as key-sorted association lists; iteration over them is iteration
in ascending key order, as for the source maps. -/
structure DisplaySet where
  pts : Nat
  dts : Nat
  width : Nat
  height : Nat
  frame_rate : Nat
  palette_update_id : Option Nat
  windows : List (Nat × Window)
  palettes : List (Vid Nat × Palette)
  objects : List (Vid Nat × Object)
  composition : Composition
deriving DecidableEq

/-- The `ReadError` from displayset/displaysetread.rs (lines 40-105).  There is
no variant for an empty segment list. -/
inductive ReadError where
  | SegmentError (source : segment.ReadError)
  | MissingPresentationCompositionSegment
  | SegmentAfterEnd
  | InconsistentPts
  | InconsistentDts
  | UnexpectedPresentationCompositionSegment
  | DuplicateWindowId
  | DuplicatePaletteVid
  | DuplicateObjectVid
  | CompositionReferencesUnknownObjectId
  | CompositionReferencesUnknownWindowId
  | PaletteUpdateReferencesUnknownPaletteId
  | InvalidObjectSequence
  | IncompleteObjectSequence
  | InconsistentObjectId
  | InconsistentObjectVersion
  | IncompleteRleSequence
  | InvalidRleSequence
  | IncompleteRleLine
deriving DecidableEq

/-- The `WriteError` from displayset/displaysetwrite.rs (lines 43-55). -/
inductive WriteError where
  | SegmentError (source : segment.WriteError)
  | ObjectLineTooLong
deriving DecidableEq

/-- The private `Sequence` enum of displayset/displaysetread.rs
(lines 107-113). -/
inductive Sequence where
  | Single
  | Initial
  | Middle
  | Final
deriving DecidableEq

/-! ## BTreeMap model: key-sorted association lists -/

/-- Strict key order used by the window map (`u8` keys). -/
def natLt (a b : Nat) : Bool := a < b

/-- Strict key order of `Vid<T>` for `T = Nat` (the derived lexicographic
`Ord` of displayset.rs). -/
def vidLt (a b : Vid Nat) : Bool :=
  a.id < b.id ∨ (a.id = b.id ∧ a.version < b.version)

/-- Strict key order of `Cid` (the derived lexicographic `Ord`). -/
def cidLt (a b : Cid) : Bool :=
  a.object_id < b.object_id ∨
    (a.object_id = b.object_id ∧ a.window_id < b.window_id)

/-- The `BTreeMap::insert`: sorted insert that replaces the value when the key
is already present. -/
def mapInsert (lt : K → K → Bool) (k : K) (v : V) :
    List (K × V) → List (K × V)
  | [] => [(k, v)]
  | (k2, v2) :: rest =>
    if lt k k2 then (k, v) :: (k2, v2) :: rest
    else if lt k2 k then (k2, v2) :: mapInsert lt k v rest
    else (k, v) :: rest

/-- The `BTreeMap::contains_key`. -/
def mapContains [DecidableEq K] (k : K) : List (K × V) → Bool
  | [] => false
  | (k2, _) :: rest => k = k2 ∨ mapContains k rest

/-! ## Writing (displayset/displaysetwrite.rs) -/

/-- The `IODS_DATA_SIZE` from displayset/displaysetwrite.rs line 33. -/
def IODS_DATA_SIZE : Nat := 65508

/-- The `MODS_DATA_SIZE` from displayset/displaysetwrite.rs line 34. -/
def MODS_DATA_SIZE : Nat := 65515

/-- The `output_rle_sequence` from displayset/displaysetwrite.rs (lines
246-296), with the emitted bytes returned instead of pushed into the output
vector.  A zero count emits nothing. -/
def output_rle_sequence (byte count : Nat) : Except WriteError (List Nat) :=
  if byte = 0x00 then
    if count = 0 then .ok []
    else if count ≤ 63 then .ok [0x00, count]
    else if count ≤ 16383 then .ok [0x00, 0x40 ||| (count >>> 8), count &&& 0xFF]
    else .error .ObjectLineTooLong
  else
    if count = 0 then .ok []
    else if count = 1 then .ok [byte]
    else if count = 2 then .ok [byte, byte]
    else if count ≤ 63 then .ok [0x00, 0x80 ||| count, byte]
    else if count ≤ 16383 then
      .ok [0x00, 0xC0 ||| (count >>> 8), count &&& 0xFF, byte]
    else .error .ObjectLineTooLong

/-- The inner loop of `rle_compress` (displayset/displaysetwrite.rs lines
221-237) over one line, carrying the running `(byte, count)` pair; at the
end of the line the pending run is flushed.  The bytes a run of the Rust
loop pushes into its single output vector are returned as one list. -/
def compressLineGo (byte count : Nat) : List Nat → Except WriteError (List Nat)
  | [] => output_rle_sequence byte count
  | next_byte :: rest =>
    if next_byte = byte then
      compressLineGo byte (count + 1) rest
    else if count > 0 then do
      let flushed ← output_rle_sequence byte count
      let tail ← compressLineGo next_byte 1 rest
      .ok (flushed ++ tail)
    else
      compressLineGo next_byte 1 rest

/-- The `rle_compress` from displayset/displaysetwrite.rs (lines 215-244): per
line, the run state starts at `(0, 0)`, the line is scanned, the final run
is flushed, and the terminator `0x00 0x00` is appended. -/
def rle_compress : List (List Nat) → Except WriteError (List Nat)
  | [] => .ok []
  | line :: rest => do
    let bytes ← compressLineGo 0 0 line
    let tail ← rle_compress rest
    .ok (bytes ++ [0x00, 0x00] ++ tail)

/-- The `while size > MODS_DATA_SIZE` loop of `to_segments`
(displayset/displaysetwrite.rs lines 167-188) together with the trailing
`FinalObjectDefinition` push. -/
def middleLoop (pts dts id version : Nat) (data : List Nat)
    (index size : Nat) : List Segment :=
  if h : size > MODS_DATA_SIZE then
    Segment.MiddleObjectDefinition
        ⟨pts, dts, id, version, (data.drop index).take MODS_DATA_SIZE⟩ ::
      middleLoop pts dts id version data (index + MODS_DATA_SIZE)
        (size - MODS_DATA_SIZE)
  else
    [Segment.FinalObjectDefinition ⟨pts, dts, id, version, data.drop index⟩]
termination_by size
decreasing_by simp only [ MODS_DATA_SIZE] at h ⊢; omega

/-- The per-object body of `to_segments` (displayset/displaysetwrite.rs
lines 146-202) after `rle_compress`: one `SingleObjectDefinition` when the
compressed size is at most `IODS_DATA_SIZE`, otherwise an
`InitialObjectDefinition` carrying the first `IODS_DATA_SIZE` data bytes
(with `length = data.len() + 4`) followed by the middle/final loop. -/
def odsSplit (pts dts id version width height : Nat) (data : List Nat) :
    List Segment :=
  if data.length > IODS_DATA_SIZE then
    Segment.InitialObjectDefinition
        ⟨pts, dts, id, version, data.length + 4, width, height,
          data.take IODS_DATA_SIZE⟩ ::
      middleLoop pts dts id version data IODS_DATA_SIZE
        (data.length - IODS_DATA_SIZE)
  else
    [Segment.SingleObjectDefinition ⟨pts, dts, id, version, width, height, data⟩]

/-- The object loop of `to_segments`. -/
def objectSegments (pts dts : Nat) :
    List (Vid Nat × Object) → Except WriteError (List Segment)
  | [] => .ok []
  | (vid, object) :: rest => do
    let data ← rle_compress object.lines
    let segs ← objectSegments pts dts rest
    .ok (odsSplit pts dts vid.id vid.version object.width object.height data ++ segs)

/-- The `DisplaySet::to_segments` from displayset/displaysetwrite.rs (lines
81-212).  The source builds the segment-level composition objects with a
field copy `forced: co.forced` (line 101) that no struct in the tree
declares; that copy has no counterpart here. -/
def to_segments (ds : DisplaySet) : Except WriteError (List Segment) := do
  let pcsSeg := Segment.PresentationComposition
    { pts := ds.pts, dts := ds.dts, width := ds.width, height := ds.height,
      frame_rate := ds.frame_rate,
      composition_number := ds.composition.number,
      composition_state := ds.composition.state,
      palette_update_id := ds.palette_update_id,
      composition_objects := ds.composition.objects.map (fun co =>
        { object_id := co.1.object_id, window_id := co.1.window_id,
          x := co.2.x, y := co.2.y, crop := co.2.crop }) }
  let wdsSegs :=
    if ds.windows.isEmpty then []
    else [Segment.WindowDefinition
      { pts := ds.pts, dts := ds.dts,
        windows := ds.windows.map (fun w =>
          { id := w.1, x := w.2.x, y := w.2.y,
            width := w.2.width, height := w.2.height }) }]
  let pdsSegs := ds.palettes.map (fun p =>
    Segment.PaletteDefinition
      { pts := ds.pts, dts := ds.dts, id := p.1.id, version := p.1.version,
        entries := p.2.entries.map (fun e =>
          { id := e.1, y := e.2.y, cr := e.2.cr, cb := e.2.cb,
            alpha := e.2.alpha }) })
  let odsSegs ← objectSegments ds.pts ds.dts ds.objects
  .ok (pcsSeg :: wdsSegs ++ pdsSegs ++ odsSegs ++
    [Segment.End ⟨ds.pts, ds.dts⟩])

/-- The segment-writing loop of `write_display_set`. -/
def writeSegments : List Segment → Except WriteError (List Nat)
  | [] => .ok []
  | seg :: rest => do
    let bytes ← (segment.write_segment seg).mapError WriteError.SegmentError
    let tail ← writeSegments rest
    .ok (bytes ++ tail)

/-- The `write_display_set` from displayset/displaysetwrite.rs (lines 67-76),
with the sink modelled as the returned byte list. -/
def write_display_set (ds : DisplaySet) : Except WriteError (List Nat) := do
  writeSegments (← to_segments ds)

/-! ## Reading (displayset/displaysetread.rs) -/

/-- The `rle_decompress` from displayset/displaysetread.rs (lines 478-566); the
body is identical to the segment-layer copy but reports errors through the
display-set `ReadError`. -/
def rleDecompressGo : List Nat → List Nat → List (List Nat) →
    Except ReadError (List (List Nat))
  | [], line, output =>
    if line.isEmpty then .ok output else .error .IncompleteRleLine
  | byte_1 :: rest, line, output =>
    if byte_1 = 0x00 then
      match rest with
      | [] => .error .IncompleteRleSequence
      | byte_2 :: rest =>
        if byte_2 = 0x00 then
          rleDecompressGo rest [] (output ++ [line])
        else if byte_2 >>> 6 = 0 then
          rleDecompressGo rest (line ++ List.replicate (byte_2 &&& 0x3F) 0) output
        else if byte_2 >>> 6 = 1 then
          match rest with
          | [] => .error .IncompleteRleSequence
          | byte_3 :: rest =>
            rleDecompressGo rest
              (line ++ List.replicate (((byte_2 &&& 0x3F) <<< 8) ||| byte_3) 0) output
        else if byte_2 >>> 6 = 2 then
          match rest with
          | [] => .error .IncompleteRleSequence
          | byte_3 :: rest =>
            rleDecompressGo rest (line ++ List.replicate (byte_2 &&& 0x3F) byte_3) output
        else if byte_2 >>> 6 = 3 then
          match rest with
          | [] => .error .IncompleteRleSequence
          | byte_3 :: rest =>
            match rest with
            | [] => .error .IncompleteRleSequence
            | byte_4 :: rest =>
              rleDecompressGo rest
                (line ++ List.replicate (((byte_2 &&& 0x3F) <<< 8) ||| byte_3) byte_4) output
        else .error .InvalidRleSequence
    else
      rleDecompressGo rest (line ++ [byte_1]) output

/-- The `rle_decompress` from displayset/displaysetread.rs. -/
def rle_decompress (input : List Nat) : Except ReadError (List (List Nat)) :=
  rleDecompressGo input [] []

/-- The mutable state of `DisplaySet::try_from`
(displayset/displaysetread.rs lines 160-170). -/
structure AsmState where
  pcs : Option segment.PresentationCompositionSegment
  es : Option segment.EndSegment
  sequence : Sequence
  initial_object : Option segment.InitialObjectDefinitionSegment
  middle_objects : List segment.MiddleObjectDefinitionSegment
  windows : List (Nat × Window)
  palettes : List (Vid Nat × Palette)
  objects : List (Vid Nat × Object)
deriving DecidableEq

/-- The initial `try_from` state. -/
def AsmState.init : AsmState :=
  { pcs := none, es := none, sequence := .Single, initial_object := none,
    middle_objects := [], windows := [], palettes := [], objects := [] }

/-- The window-insertion loop of the WDS arm of `try_from`. -/
def insertWindows (ws : List segment.WindowDefinition)
    (windows : List (Nat × Window)) :
    Except ReadError (List (Nat × Window)) :=
  match ws with
  | [] => .ok windows
  | wd :: rest =>
    if mapContains wd.id windows then .error .DuplicateWindowId
    else insertWindows rest
      (mapInsert natLt wd.id ⟨wd.x, wd.y, wd.width, wd.height⟩ windows)

/-- One step of the `for segment in value` loop of `DisplaySet::try_from`
(displayset/displaysetread.rs lines 172-420).  `none` models a panic or
stuck control flow: the `panic!("initial_object is not set")` arms, and the
`ObjectDefinition` variant constructed by segment/segmentread.rs, which the
source match does not cover. -/
def tryFromStep (st : AsmState) (seg : Segment) :
    Option (Except ReadError AsmState) :=
  if st.es.isSome then some (.error .SegmentAfterEnd) else
  match seg with
  | .PresentationComposition this_pcs =>
    match st.pcs with
    | none => some (.ok { st with pcs := some this_pcs })
    | some _ => some (.error .UnexpectedPresentationCompositionSegment)
  | .WindowDefinition wds =>
    match st.pcs with
    | some the_pcs =>
      if wds.pts ≠ the_pcs.pts then some (.error .InconsistentPts)
      else if wds.dts ≠ the_pcs.dts then some (.error .InconsistentDts)
      else
        match insertWindows wds.windows st.windows with
        | .error e => some (.error e)
        | .ok windows => some (.ok { st with windows := windows })
    | none => some (.error .MissingPresentationCompositionSegment)
  | .PaletteDefinition pds =>
    match st.pcs with
    | some the_pcs =>
      if pds.pts ≠ the_pcs.pts then some (.error .InconsistentPts)
      else if pds.dts ≠ the_pcs.dts then some (.error .InconsistentDts)
      else
        let vid : Vid Nat := ⟨pds.id, pds.version⟩
        if mapContains vid st.palettes then some (.error .DuplicatePaletteVid)
        else
          let entries := pds.entries.foldl (fun m pe =>
            mapInsert natLt pe.id ⟨pe.y, pe.cr, pe.cb, pe.alpha⟩ m) []
          some (.ok { st with palettes := mapInsert vidLt vid ⟨entries⟩ st.palettes })
    | none => some (.error .MissingPresentationCompositionSegment)
  | .SingleObjectDefinition sods =>
    match st.pcs with
    | some the_pcs =>
      if st.sequence = .Single ∨ st.sequence = .Final then
        if sods.pts ≠ the_pcs.pts then some (.error .InconsistentPts)
        else if sods.dts ≠ the_pcs.dts then some (.error .InconsistentDts)
        else
          let vid : Vid Nat := ⟨sods.id, sods.version⟩
          if mapContains vid st.objects then some (.error .DuplicateObjectVid)
          else
            match rle_decompress sods.data with
            | .error e => some (.error e)
            | .ok lines =>
              let objects := mapInsert vidLt vid ⟨sods.width, sods.height, lines⟩ st.objects
              some (.ok { st with objects := objects, sequence := .Single })
      else some (.error .InvalidObjectSequence)
    | none => some (.error .MissingPresentationCompositionSegment)
  | .InitialObjectDefinition iods =>
    match st.pcs with
    | some the_pcs =>
      if st.sequence = .Single ∨ st.sequence = .Final then
        if iods.pts ≠ the_pcs.pts then some (.error .InconsistentPts)
        else if iods.dts ≠ the_pcs.dts then some (.error .InconsistentDts)
        else
          let vid : Vid Nat := ⟨iods.id, iods.version⟩
          if mapContains vid st.objects then some (.error .DuplicateObjectVid)
          else some (.ok { st with initial_object := some iods, sequence := .Initial })
      else some (.error .InvalidObjectSequence)
    | none => some (.error .MissingPresentationCompositionSegment)
  | .MiddleObjectDefinition mods =>
    match st.pcs with
    | some the_pcs =>
      if st.sequence = .Initial ∨ st.sequence = .Middle then
        match st.initial_object with
        | some iods =>
          if mods.pts ≠ the_pcs.pts then some (.error .InconsistentPts)
          else if mods.dts ≠ the_pcs.dts then some (.error .InconsistentDts)
          else if mods.id ≠ iods.id then some (.error .InconsistentObjectId)
          else if mods.version ≠ iods.version then some (.error .InconsistentObjectVersion)
          else
            let middle_objects := st.middle_objects ++ [mods]
            some (.ok { st with middle_objects := middle_objects, sequence := .Middle })
        | none => none
      else some (.error .InvalidObjectSequence)
    | none => some (.error .MissingPresentationCompositionSegment)
  | .FinalObjectDefinition fods =>
    match st.pcs with
    | some the_pcs =>
      if st.sequence = .Initial ∨ st.sequence = .Middle then
        match st.initial_object with
        | some iods =>
          if fods.pts ≠ the_pcs.pts then some (.error .InconsistentPts)
          else if fods.dts ≠ the_pcs.dts then some (.error .InconsistentDts)
          else if fods.id ≠ iods.id then some (.error .InconsistentObjectId)
          else if fods.version ≠ iods.version then some (.error .InconsistentObjectVersion)
          else
            let vid : Vid Nat := ⟨iods.id, iods.version⟩
            let data := iods.data ++ (st.middle_objects.map (·.data)).flatten ++ fods.data
            match rle_decompress data with
            | .error e => some (.error e)
            | .ok lines =>
              let objects := mapInsert vidLt vid ⟨iods.width, iods.height, lines⟩ st.objects
              some (.ok { st with objects := objects, initial_object := none, middle_objects := [], sequence := .Final })
        | none => none
      else some (.error .InvalidObjectSequence)
    | none => some (.error .MissingPresentationCompositionSegment)
  | .ObjectDefinition _ => none
  | .End this_es =>
    match st.pcs with
    | some the_pcs =>
      if st.sequence ≠ .Single ∧ st.sequence ≠ .Final then
        some (.error .IncompleteObjectSequence)
      else if this_es.pts ≠ the_pcs.pts then some (.error .InconsistentPts)
      else if this_es.dts ≠ the_pcs.dts then some (.error .InconsistentDts)
      else some (.ok { st with es := some this_es })
    | none => some (.error .MissingPresentationCompositionSegment)

/-- The tail of `DisplaySet::try_from` after the segment loop
(displayset/displaysetread.rs lines 422-475): `pcs.expect(..)` — a panic,
hence `none`, when no PCS was seen — then the composition-object map, the
palette-update check and the final `DisplaySet`. -/
def tryFromFinish (st : AsmState) : Option (Except ReadError DisplaySet) :=
  match st.pcs with
  | none => none
  | some the_pcs =>
    let composition_objects := the_pcs.composition_objects.foldl
      (fun m co => mapInsert cidLt ⟨co.object_id, co.window_id⟩
        ⟨co.x, co.y, co.crop⟩ m) []
    let composition : Composition :=
      { number := the_pcs.composition_number,
        state := the_pcs.composition_state,
        objects := composition_objects }
    match the_pcs.palette_update_id with
    | some palette_update_id =>
      if st.palettes.any (fun p => p.1.id = palette_update_id) then
        some (.ok
          { pts := the_pcs.pts, dts := the_pcs.dts, width := the_pcs.width,
            height := the_pcs.height, frame_rate := the_pcs.frame_rate,
            palette_update_id := the_pcs.palette_update_id,
            windows := st.windows, palettes := st.palettes,
            objects := st.objects, composition := composition })
      else some (.error .PaletteUpdateReferencesUnknownPaletteId)
    | none =>
      some (.ok
        { pts := the_pcs.pts, dts := the_pcs.dts, width := the_pcs.width,
          height := the_pcs.height, frame_rate := the_pcs.frame_rate,
          palette_update_id := the_pcs.palette_update_id,
          windows := st.windows, palettes := st.palettes,
          objects := st.objects, composition := composition })

/-- The segment loop of `DisplaySet::try_from`. -/
def tryFromGo (st : AsmState) : List Segment → Option (Except ReadError DisplaySet)
  | [] => tryFromFinish st
  | seg :: rest =>
    match tryFromStep st seg with
    | none => none
    | some (.error e) => some (.error e)
    | some (.ok st2) => tryFromGo st2 rest

/-- The `DisplaySet::try_from` from displayset/displaysetread.rs (lines
156-476).  `none` models a panic. -/
def DisplaySet.tryFrom (segments : List Segment) :
    Option (Except ReadError DisplaySet) :=
  tryFromGo AsmState.init segments

/-- The segment-collection loop of `read_display_set`
(displayset/displaysetread.rs lines 137-150), driven by explicit fuel.  The
loop is executed at most once per stream byte: every successful
`read_segment` consumes at least the 13 header bytes, so with
`bs.length + 1` units of fuel the fuel can never run out; the fuel-exhausted
outcome `none` is unreachable and no theorem relies on it. -/
def readLoop (fuel : Nat) (bs : List Nat) (acc : List Segment) :
    Option (Except ReadError (List Segment × List Nat)) :=
  match fuel with
  | 0 => none
  | fuel + 1 =>
    match segment.read_segment bs with
    | .error e => some (.error (.SegmentError e))
    | .ok (.PresentationComposition _, _) =>
      some (.error .UnexpectedPresentationCompositionSegment)
    | .ok (.End es, rest) => some (.ok (acc ++ [.End es], rest))
    | .ok (seg, rest) => readLoop fuel rest (acc ++ [seg])

/-- The `read_display_set` from displayset/displaysetread.rs (lines 124-153):
read one segment, require it to be a PCS, then collect segments until an
end segment and hand the list to `DisplaySet::try_from`.  Returns the
display set together with the unread rest of the stream; `none` models a
panic inside `try_from`. -/
def read_display_set (bs : List Nat) :
    Option (Except ReadError (DisplaySet × List Nat)) :=
  match segment.read_segment bs with
  | .error e => some (.error (.SegmentError e))
  | .ok (.PresentationComposition pcs, rest) =>
    match readLoop (rest.length + 1) rest [.PresentationComposition pcs] with
    | none => none
    | some (.error e) => some (.error e)
    | some (.ok (segments, rest2)) =>
      match DisplaySet.tryFrom segments with
      | none => none
      | some (.error e) => some (.error e)
      | some (.ok ds) => some (.ok (ds, rest2))
  | .ok _ => some (.error .MissingPresentationCompositionSegment)

end displayset

/-! ## Concrete inputs used by the theorems below -/

deriving instance DecidableEq for Except

open segment displayset

/-- A minimal display set holding exactly one object (id 0, version 0,
zero-sized, no lines). -/
def dsOneObject : DisplaySet :=
  { pts := 0, dts := 0, width := 0, height := 0, frame_rate := 0,
    palette_update_id := none, windows := [], palettes := [],
    objects := [(⟨0, 0⟩, ⟨0, 0, []⟩)],
    composition := { number := 0, state := .EpochStart, objects := [] } }

/-- A middle object-definition fragment. -/
def midOds : Segment := .MiddleObjectDefinition ⟨1, 2, 3, 4, [5]⟩

/-- A well-formed byte stream holding one ODS segment whose payload carries
the sequence flag `0x00`: object id 7, version 1, flag `0x00`, one data
byte. -/
def modsBytes : List Nat :=
  [0x50, 0x47, 0, 0, 0, 1, 0, 0, 0, 0, 0x15, 0, 5, 0, 7, 1, 0x00, 9]

/-- Sample lines for the RLE round-trip witness. -/
def rleLines : List (List Nat) := [[], [0, 0], [5, 5, 5, 5]]

/-- The `rle_compress rleLines`. -/
def rleBytes : List Nat := [0, 0, 0, 2, 0, 0, 0, 132, 5, 0, 0]

/-- A presentation composition segment holding a single composition object
with an explicit crop. -/
def pcsExplicitCrop : segment.PresentationCompositionSegment :=
  { pts := 10, dts := 0, width := 1920, height := 1080, frame_rate := 0x10,
    composition_number := 1, composition_state := .EpochStart,
    palette_update_id := none,
    composition_objects := [⟨1, 1, 100, 100, .Explicit 0 0 4 1⟩] }

/-- A palette-definition segment with 13107 entries, whose payload
(2 + 5 · 13107 = 65537 bytes) exceeds the 16-bit size field. -/
def pdsOversize : segment.PaletteDefinitionSegment :=
  { pts := 3, dts := 0, id := 1, version := 0,
    entries := List.replicate 13107 ⟨0, 16, 128, 128, 255⟩ }

/-- The byte encoding the composition state. -/
def csByte (cs : CompositionState) : Nat :=
  match cs with
  | .Normal => 0x00
  | .AcquisitionPoint => 0x40
  | .EpochStart => 0x80

/-- The two bytes encoding the palette-update field: flag and id (a skipped
filler byte when no update is present). -/
def puBytes (pu : Option Nat) (skip : Nat) : List Nat :=
  match pu with
  | some pal_id => [0x80, pal_id]
  | none => [0x00, skip]

/-- A leading presentation composition segment for the assembler-state
witness below. -/
def leadPcs : segment.PresentationCompositionSegment :=
  { pts := 0, dts := 0, width := 0, height := 0, frame_rate := 0,
    composition_number := 0, composition_state := .EpochStart,
    palette_update_id := none, composition_objects := [] }

/-- An assembler state in the middle of a multi-part object run: a PCS has
been seen, no end segment yet, the sequence state is `Initial` with a
pending initial fragment. -/
def asmMidRun : AsmState :=
  { pcs := some leadPcs,
    es := none, sequence := .Initial,
    initial_object := some ⟨0, 0, 9, 0, 40, 2, 2, [1, 2]⟩,
    middle_objects := [], windows := [], palettes := [], objects := [] }

/-! ## Claim C1, C2, C4, C9: concrete evaluations -/

/-- C1: the display-set round trip fails on this code.  Writing the minimal
one-object display set succeeds, but reading the produced bytes back ends in
a panic (`none`): the segment reader returns the unified `ObjectDefinition`
variant, which `DisplaySet::try_from` does not cover.  The crate's own
displayset tests assert that such display sets round-trip. -/
theorem c1_display_set_round_trip_fails :
    (write_display_set dsOneObject).map read_display_set = .ok none := by
  decide

/-- C2: the segment round trip fails on this code.  Writing a
`MiddleObjectDefinition` succeeds and emits the sequence flag `0x00`, but
`read_segment` rejects that flag with `UnrecognizedObjectSequenceFlag`. -/
theorem c2_segment_round_trip_fails_on_middle :
    (segment.write_segment midOds).map read_segment =
      .ok (.error (.UnrecognizedObjectSequenceFlag 0x00)) := by
  decide

/-- C4: an ODS payload whose sequence flag byte is `0x00` is not parsed as a
middle fragment; `read_segment` fails with
`UnrecognizedObjectSequenceFlag 0x00` — the very flag value the crate's own
`generate_mods` emits for middle fragments. -/
theorem c4_middle_flag_rejected :
    read_segment modsBytes = .error (.UnrecognizedObjectSequenceFlag 0x00) := by
  decide

/-- C9 counterexample: parsing an already-collected empty segment list does
not terminate with an error value at all — the claimed `NoSegments` error
does not exist and `try_from` panics (`pcs.expect`). -/
theorem c9_counterexample : (DisplaySet.tryFrom []).isSome = false := by
  decide

/-- C9 (amended): `DisplaySet::try_from` applied to an empty segment list
panics on `pcs.expect(..)` — modelled as `none` — instead of returning a
dedicated error value; the display-set `ReadError` enum has no variant for
an empty segment list. -/
theorem c9_empty_segment_list_panics : DisplaySet.tryFrom [] = none := by
  decide

/-! ## Claim C3: the RLE round trip

Helper facts about the opcode bytes, decided over their bounded ranges. -/

/-- A six-bit value is unchanged by `&&& 0x3F` and shifted out by `>>> 6`. -/
theorem sixBitFacts : ∀ c < 64, c &&& 0x3F = c ∧ c >>> 6 = 0 := by decide

/-- Facts about the `0x40`-family opcode byte. -/
theorem opcode40Facts : ∀ x < 64,
    (0x40 ||| x) ≠ 0 ∧ (0x40 ||| x) >>> 6 = 1 ∧ (0x40 ||| x) &&& 0x3F = x := by
  decide

/-- Facts about the `0x80`-family opcode byte. -/
theorem opcode80Facts : ∀ c < 64,
    (0x80 ||| c) ≠ 0 ∧ (0x80 ||| c) >>> 6 = 2 ∧ (0x80 ||| c) &&& 0x3F = c := by
  decide

/-- Facts about the `0xC0`-family opcode byte. -/
theorem opcodeC0Facts : ∀ x < 64,
    (0xC0 ||| x) ≠ 0 ∧ (0xC0 ||| x) >>> 6 = 3 ∧ (0xC0 ||| x) &&& 0x3F = x := by
  decide

/-- The low byte of a run length is its value modulo 256. -/
theorem and255_eq_mod (c : Nat) : c &&& 0xFF = c % 256 := by
  have h := Nat.and_pow_two_sub_one_eq_mod c 8
  norm_num at h
  exact h

/-- The high part of a run length is its value divided by 256. -/
theorem shr8_eq_div (c : Nat) : c >>> 8 = c / 256 := by
  have h := Nat.shiftRight_eq_div_pow c 8
  norm_num at h
  exact h

/-- A run length is recovered from its split high/low bytes. -/
theorem shiftRecompose (c : Nat) : ((c >>> 8) <<< 8) ||| (c &&& 0xFF) = c := by
  have h4 : c % 256 < 2 ^ 8 := by norm_num [Nat.mod_lt]
  have h5 := Nat.mul_add_lt_is_or h4 (c / 256)
  rw [and255_eq_mod, shr8_eq_div, Nat.shiftLeft_eq, Nat.mul_comm, ← h5]
  norm_num
  omega

/-- A fourteen-bit run length has a six-bit high part. -/
theorem shr8_lt (c : Nat) (h : c ≤ 16383) : c >>> 8 < 64 := by
  rw [shr8_eq_div]
  omega

/-! Single-step unfolding lemmas for `displayset.rleDecompressGo`. -/

/-- End of input. -/
theorem go_nil (line : List Nat) (output : List (List Nat)) :
    displayset.rleDecompressGo [] line output =
      if line.isEmpty then .ok output else .error .IncompleteRleLine := by
  rw [displayset.rleDecompressGo.eq_def]

/-- A literal byte. -/
theorem go_literal (b : Nat) (hb : b ≠ 0) (rest line : List Nat)
    (output : List (List Nat)) :
    displayset.rleDecompressGo (b :: rest) line output =
      displayset.rleDecompressGo rest (line ++ [b]) output := by
  conv_lhs => rw [displayset.rleDecompressGo.eq_def]
  simp [hb]

/-- The end-of-line terminator. -/
theorem go_eol (rest line : List Nat) (output : List (List Nat)) :
    displayset.rleDecompressGo (0 :: 0 :: rest) line output =
      displayset.rleDecompressGo rest [] (output ++ [line]) := by
  conv_lhs => rw [displayset.rleDecompressGo.eq_def]
  simp

/-- A short zero run. -/
theorem go_zeros_short (b2 : Nat) (h0 : b2 ≠ 0) (h6 : b2 >>> 6 = 0)
    (rest line : List Nat) (output : List (List Nat)) :
    displayset.rleDecompressGo (0 :: b2 :: rest) line output =
      displayset.rleDecompressGo rest (line ++ List.replicate (b2 &&& 0x3F) 0) output := by
  conv_lhs => rw [displayset.rleDecompressGo.eq_def]
  simp [h0, h6]

/-- A long zero run. -/
theorem go_zeros_long (b2 : Nat) (h0 : b2 ≠ 0) (h6 : b2 >>> 6 = 1)
    (b3 : Nat) (rest line : List Nat) (output : List (List Nat)) :
    displayset.rleDecompressGo (0 :: b2 :: b3 :: rest) line output =
      displayset.rleDecompressGo rest
        (line ++ List.replicate (((b2 &&& 0x3F) <<< 8) ||| b3) 0) output := by
  conv_lhs => rw [displayset.rleDecompressGo.eq_def]
  simp [h0, h6]

/-- A short nonzero run. -/
theorem go_run_short (b2 : Nat) (h0 : b2 ≠ 0) (h6 : b2 >>> 6 = 2)
    (b3 : Nat) (rest line : List Nat) (output : List (List Nat)) :
    displayset.rleDecompressGo (0 :: b2 :: b3 :: rest) line output =
      displayset.rleDecompressGo rest (line ++ List.replicate (b2 &&& 0x3F) b3) output := by
  conv_lhs => rw [displayset.rleDecompressGo.eq_def]
  simp [h0, h6]

/-- A long nonzero run. -/
theorem go_run_long (b2 : Nat) (h0 : b2 ≠ 0) (h6 : b2 >>> 6 = 3)
    (b3 b4 : Nat) (rest line : List Nat) (output : List (List Nat)) :
    displayset.rleDecompressGo (0 :: b2 :: b3 :: b4 :: rest) line output =
      displayset.rleDecompressGo rest
        (line ++ List.replicate (((b2 &&& 0x3F) <<< 8) ||| b3) b4) output := by
  conv_lhs => rw [displayset.rleDecompressGo.eq_def]
  simp [h0, h6]

/-- Decoding the bytes that `output_rle_sequence` emits for a run appends
the run to the current line and continues with the rest of the stream. -/
theorem rleDecompressGo_opcode (byte count : Nat) (em : List Nat)
    (h : output_rle_sequence byte count = .ok em) (s line : List Nat)
    (output : List (List Nat)) :
    displayset.rleDecompressGo (em ++ s) line output =
      displayset.rleDecompressGo s (line ++ List.replicate count byte) output := by
  unfold output_rle_sequence at h
  split_ifs at h with hb h0 h63 h16383 h0 h1 h2 h63 h16383 <;>
    simp only [Except.ok.injEq] at h <;> subst_vars
  · simp
  · have hf := sixBitFacts count (by omega)
    rw [List.cons_append, List.cons_append, List.nil_append,
      go_zeros_short count h0 hf.2, hf.1]
  · have hlt := shr8_lt count (by omega)
    have hf := opcode40Facts (count >>> 8) hlt
    rw [List.cons_append, List.cons_append, List.cons_append, List.nil_append,
      go_zeros_long _ hf.1 hf.2.1, hf.2.2, shiftRecompose]
  · simp
  · rw [List.cons_append, List.nil_append, go_literal byte hb, List.replicate_one]
  · rw [List.cons_append, List.cons_append, List.nil_append,
      go_literal byte hb, go_literal byte hb, List.append_assoc]
    norm_num [List.replicate_succ]
  · have hf := opcode80Facts count (by omega)
    rw [List.cons_append, List.cons_append, List.cons_append, List.nil_append,
      go_run_short _ hf.1 hf.2.1, hf.2.2]
  · have hlt := shr8_lt count (by omega)
    have hf := opcodeC0Facts (count >>> 8) hlt
    rw [List.cons_append, List.cons_append, List.cons_append, List.cons_append,
      List.nil_append, go_run_long _ hf.1 hf.2.1, hf.2.2, shiftRecompose]


/-- Decoding the bytes emitted for one whole line followed by the
terminator pushes the line (prefixed by the pending accumulator and run)
and continues with the rest of the stream. -/
theorem rleDecompressGo_line (l : List Nat) : ∀ (byte count : Nat) (em : List Nat),
    compressLineGo byte count l = .ok em →
    ∀ (s acc : List Nat) (output : List (List Nat)),
    displayset.rleDecompressGo (em ++ 0 :: 0 :: s) acc output =
      displayset.rleDecompressGo s []
        (output ++ [acc ++ List.replicate count byte ++ l]) := by
  induction l with
  | nil =>
    intro byte count em h s acc output
    simp only [compressLineGo] at h
    rw [rleDecompressGo_opcode byte count em h, go_eol]
    simp
  | cons next rest ih =>
    intro byte count em h s acc output
    simp only [compressLineGo] at h
    split_ifs at h with heq hc
    · subst heq
      rw [ih next (count + 1) em h s acc output]
      simp [List.replicate_succ', List.append_assoc]
    · simp only [bind, Except.bind] at h
      cases hflush : output_rle_sequence byte count with
      | error e => rw [hflush] at h; cases h
      | ok flushed =>
        rw [hflush] at h
        cases htail : compressLineGo next 1 rest with
        | error e => rw [htail] at h; cases h
        | ok tail =>
          rw [htail] at h
          simp only [Except.ok.injEq] at h
          subst h
          rw [List.append_assoc, rleDecompressGo_opcode byte count flushed hflush,
            ih next 1 tail htail]
          simp [List.append_assoc]
    · rw [ih next 1 em h s acc output]
      have hc0 : count = 0 := by omega
      subst hc0
      simp
  
/-- Decoding the full compressed stream appends the source lines to the
output and continues with the rest of the stream. -/
theorem rleDecompressGo_compress (input : List (List Nat)) : ∀ (data : List Nat),
    rle_compress input = .ok data → ∀ (s : List Nat) (output : List (List Nat)),
    displayset.rleDecompressGo (data ++ s) [] output =
      displayset.rleDecompressGo s [] (output ++ input) := by
  induction input with
  | nil =>
    intro data h s output
    simp only [rle_compress, Except.ok.injEq] at h
    subst h
    simp
  | cons line rest ih =>
    intro data h s output
    simp only [rle_compress, bind, Except.bind] at h
    cases hbytes : compressLineGo 0 0 line with
    | error e => rw [hbytes] at h; cases h
    | ok bytes =>
      rw [hbytes] at h
      cases htail : rle_compress rest with
      | error e => rw [htail] at h; cases h
      | ok tail =>
        rw [htail] at h
        simp only [Except.ok.injEq] at h
        subst h
        have hshape : (bytes ++ [0, 0] ++ tail) ++ s = bytes ++ 0 :: 0 :: (tail ++ s) := by
          simp
        rw [hshape, rleDecompressGo_line line 0 0 bytes hbytes (tail ++ s) [] output]
        simp only [List.replicate_zero, List.append_nil, List.nil_append]
        rw [ih tail htail s (output ++ [line])]
        simp

/-- C3 (amended): whenever `rle_compress` succeeds, `rle_decompress`
recovers exactly the original sequence of lines (empty lines and the empty
sequence included).  `rle_compress` itself can fail: a line holding a run
longer than 16383 equal bytes is rejected with `ObjectLineTooLong`
(see the counterexample below), so the round trip holds exactly on the
inputs the compressor accepts. -/
theorem c3_rle_round_trip (lines : List (List Nat)) (data : List Nat)
    (h : rle_compress lines = .ok data) :
    displayset.rle_decompress data = .ok lines := by
  have hmain := rleDecompressGo_compress lines data h [] []
  rw [List.append_nil] at hmain
  rw [displayset.rle_decompress, hmain, go_nil]
  simp

/-- C3 witness: the round trip evaluated on concrete lines. -/
theorem c3_rle_round_trip_witness :
    rle_compress rleLines = .ok rleBytes ∧
      displayset.rle_decompress rleBytes = .ok rleLines :=
  ⟨by decide, c3_rle_round_trip rleLines rleBytes (by decide)⟩

/-- A maximal run compresses to a single flush of the accumulated count. -/
theorem compressLineGo_replicate (n : Nat) : ∀ (count : Nat),
    compressLineGo 1 count (List.replicate n 1) =
      output_rle_sequence 1 (count + n) := by
  induction n with
  | zero => intro count; simp [List.replicate, compressLineGo]
  | succ k ih =>
    intro count
    rw [List.replicate_succ]
    simp only [compressLineGo, if_pos rfl]
    rw [ih (count + 1)]
    have harith : count + 1 + k = count + (k + 1) := by omega
    rw [harith]
    simp

/-- C3 counterexample: `rle_compress` does not succeed on every sequence of
lines of palette-index bytes — a single line holding 16384 equal nonzero
bytes fails with `ObjectLineTooLong`. -/
theorem c3_counterexample :
    rle_compress [List.replicate 16384 1] = .error .ObjectLineTooLong := by
  have hstep : compressLineGo 0 0 (List.replicate 16384 1) =
      compressLineGo 1 1 (List.replicate 16383 1) := by
    have hs : (16384 : Nat) = 16383 + 1 := by norm_num
    rw [hs, List.replicate_succ]
    generalize List.replicate 16383 1 = R
    simp only [compressLineGo]
    rw [if_neg (by norm_num : ¬ (1 : Nat) = 0), if_neg (by norm_num : ¬ (0 : Nat) > 0)]
  have h1 : compressLineGo 0 0 (List.replicate 16384 1) =
      .error WriteError.ObjectLineTooLong := by
    rw [hstep, compressLineGo_replicate 16383 1]
    decide
  simp only [rle_compress, bind, Except.bind, h1]

/-! ## Claim C5: splitting an object whose RLE size is 150000 bytes -/

/-- Shared helper: the exact segment list `odsSplit` produces for a
150000-byte data buffer — one initial, one middle and one final fragment. -/
theorem odsSplitShape150000 (pts dts id version width height : Nat)
    (data : List Nat) (h : data.length = 150000) :
    odsSplit pts dts id version width height data =
      [.InitialObjectDefinition
          ⟨pts, dts, id, version, 150004, width, height, data.take 65508⟩,
        .MiddleObjectDefinition
          ⟨pts, dts, id, version, (data.drop 65508).take 65515⟩,
        .FinalObjectDefinition ⟨pts, dts, id, version, data.drop 131023⟩] := by
  rw [odsSplit]
  rw [if_pos (by simp [ IODS_DATA_SIZE, h])]
  rw [h]
  rw [middleLoop]
  rw [dif_pos (by simp [ IODS_DATA_SIZE, MODS_DATA_SIZE])]
  rw [middleLoop]
  rw [dif_neg (by simp [ IODS_DATA_SIZE, MODS_DATA_SIZE])]
  simp [ IODS_DATA_SIZE, MODS_DATA_SIZE]

/-- C5 counterexample: an object whose RLE-encoded data is 150000 bytes
long is split into exactly one middle fragment, not two. -/
theorem c5_counterexample :
    ((odsSplit 0 0 0 0 0 0 (List.replicate 150000 7)).filter
        (fun s => match s with
          | .MiddleObjectDefinition _ => true
          | _ => false)).length = 1 := by
  have hs := odsSplitShape150000 0 0 0 0 0 0 (List.replicate 150000 7)
    (List.length_replicate 150000 7)
  rw [hs]
  rfl

/-- C5 (amended): an object whose RLE-encoded size is 150000 bytes is
serialized by `to_segments` (through `odsSplit`) as exactly one Initial ODS
carrying data bytes 0..65508, one Middle ODS carrying bytes 65508..131023,
and one Final ODS carrying bytes 131023..150000, all fragments bearing the
same id and version, with the Initial length field set to 150004 (the data
length plus the +4 quirk). -/
theorem c5_ods_split_150000 (pts dts id version width height : Nat)
    (data : List Nat) (h : data.length = 150000) :
    odsSplit pts dts id version width height data =
      [.InitialObjectDefinition
          ⟨pts, dts, id, version, 150004, width, height, data.take 65508⟩,
        .MiddleObjectDefinition
          ⟨pts, dts, id, version, (data.drop 65508).take 65515⟩,
        .FinalObjectDefinition ⟨pts, dts, id, version, data.drop 131023⟩] :=
  odsSplitShape150000 pts dts id version width height data h

/-- C5 witness: the amended split applied to a concrete 150000-byte data
buffer. -/
theorem c5_ods_split_150000_witness :
    (List.replicate 150000 7 : List Nat).length = 150000 ∧
      odsSplit 9 8 7 6 5 4 (List.replicate 150000 7) =
        [.InitialObjectDefinition
            ⟨9, 8, 7, 6, 150004, 5, 4, (List.replicate 150000 7).take 65508⟩,
          .MiddleObjectDefinition
            ⟨9, 8, 7, 6, ((List.replicate 150000 7).drop 65508).take 65515⟩,
          .FinalObjectDefinition ⟨9, 8, 7, 6, (List.replicate 150000 7).drop 131023⟩] :=
  ⟨List.length_replicate 150000 7,
    c5_ods_split_150000 9 8 7 6 5 4 (List.replicate 150000 7)
      (List.length_replicate 150000 7)⟩

/-! ## Claim C6: the composition-object flags byte -/

/-- C6 counterexample: for a composition object with an explicit crop the
emitted flags byte (payload offset 14 for a single-object PCS) is `0x80`,
which does not have the `0x40` bit set — no forced-display flag is encoded
(and no such field exists on the composition-object structs). -/
theorem c6_counterexample :
    (generate_pcs pcsExplicitCrop).map (fun p => p.drop 14) =
      .ok [0x80, 0, 100, 0, 100, 0, 0, 0, 0, 0, 4, 0, 1] ∧
      (0x80 : Nat) &&& 0x40 = 0 := by
  constructor
  · decide
  · decide

/-- C6 (amended): composition objects carry no forced-display flag; the
crop field is three-state and alone determines the flags byte.  For a PCS
holding a single composition object with an explicit crop, `generate_pcs`
succeeds and emits the flags byte `0x80` (cropped only — the `0x40` bit
clear) followed by the object position and the eight crop bytes. -/
theorem c6_explicit_crop_flags (pts dts width height frame_rate cn : Nat)
    (cs : CompositionState) (pu : Option Nat) (oid wid x y cx cy cw ch : Nat) :
    generate_pcs
        { pts := pts, dts := dts, width := width, height := height,
          frame_rate := frame_rate, composition_number := cn,
          composition_state := cs, palette_update_id := pu,
          composition_objects := [⟨oid, wid, x, y, .Explicit cx cy cw ch⟩] } =
      .ok (writeU16 width ++ writeU16 height ++ writeU8 frame_rate ++
        writeU16 cn ++
        writeU8 (match cs with
          | .Normal => 0x00
          | .AcquisitionPoint => 0x40
          | .EpochStart => 0x80) ++
        (match pu with
          | some pal_id => writeU8 0x80 ++ writeU8 pal_id
          | none => writeU8 0x00 ++ writeU8 0) ++
        writeU8 1 ++
        (writeU16 oid ++ writeU8 wid ++ writeU8 0x80 ++ writeU16 x ++ writeU16 y ++
          (writeU16 cx ++ writeU16 cy ++ writeU16 cw ++ writeU16 ch))) ∧
      (0x80 : Nat) &&& 0x40 = 0 := by
  constructor
  · simp [generate_pcs, compObjBytes, List.append_assoc]
  · decide

/-! ## Claim C7: the truncated-crop compatibility quirk -/

/-- Reading one byte from a cons cell. -/
theorem readU8_cons (b : Nat) (rest : List Nat) :
    readU8 (b :: rest) = .ok (b, rest) := rfl

/-- Reading a 16-bit value from two cons cells. -/
theorem readU16_cons (b1 b2 : Nat) (rest : List Nat) :
    readU16 (b1 :: b2 :: rest) = .ok (256 * b1 + b2, rest) := rfl

/-- A 16-bit write round-trips through the 16-bit read. -/
theorem readU16_writeU16 (n : Nat) (h : n < 65536) (rest : List Nat) :
    readU16 (writeU16 n ++ rest) = .ok (n, rest) := by
  simp only [writeU16, List.cons_append, List.nil_append, readU16_cons]
  congr 2
  omega

/-- The `read_exact` of the whole remaining stream. -/
theorem readExact_all (bs : List Nat) :
    readExact bs.length bs = .ok (bs, []) := by
  simp [readExact]

/-- Reading a 32-bit value from four cons cells. -/
theorem readU32_cons (b1 b2 b3 b4 : Nat) (rest : List Nat) :
    readU32 (b1 :: b2 :: b3 :: b4 :: rest) =
      .ok (65536 * (256 * b1 + b2) + (256 * b3 + b4), rest) := rfl

/-- The `read_exact` when the stream holds exactly the requested bytes. -/
theorem readExact_len (n : Nat) (bs : List Nat) (h : bs.length = n) :
    readExact n bs = .ok (bs, []) := by
  subst h
  exact readExact_all bs

/-- The composition-object loop of `parse_pcs` on a single record whose
cropped flag is set (`0x40`) with fewer than 8 bytes left: the record is
accepted with no crop and the tail is left unread. -/
theorem c7_parse_pcs (pts dts : Nat)
    (w1 w2 h1 h2 fr cn1 cn2 : Nat) (cs : CompositionState) (pu : Option Nat)
    (skip : Nat) (o1 o2 wid x1 x2 y1 y2 : Nat) (extra : List Nat)
    (hextra : extra.length < 8) :
    parse_pcs pts dts
        ([w1, w2, h1, h2, fr, cn1, cn2, csByte cs] ++ puBytes pu skip ++
          [1, o1, o2, wid, 0x40, x1, x2, y1, y2] ++ extra) =
      .ok { pts := pts, dts := dts,
            width := 256 * w1 + w2, height := 256 * h1 + h2, frame_rate := fr,
            composition_number := 256 * cn1 + cn2, composition_state := cs,
            palette_update_id := pu,
            composition_objects :=
              [⟨256 * o1 + o2, wid, 256 * x1 + x2, 256 * y1 + y2, .None⟩] } := by
  have hrec : parseCompObjs 1 (o1 :: o2 :: wid :: 0x40 :: x1 :: x2 :: y1 :: y2 :: extra) =
      .ok ([⟨256 * o1 + o2, wid, 256 * x1 + x2, 256 * y1 + y2, .None⟩], extra) := by
    rw [parseCompObjs]
    rw [if_pos (show 8 ≤ (o1 :: o2 :: wid :: 0x40 :: x1 :: x2 :: y1 :: y2 :: extra).length by
      simp)]
    simp only [readU16_cons, readU8_cons, bind, Except.bind]
    norm_num
    rw [if_neg (show ¬ 8 ≤ extra.length by omega)]
    simp [parseCompObjs]
  cases cs <;> cases pu <;>
    simp [parse_pcs, csByte, puBytes, readU16_cons, readU8_cons, bind, Except.bind, hrec]

theorem c7_truncated_crop_yields_none
    (p1 p2 p3 p4 d1 d2 d3 d4 : Nat)
    (w1 w2 h1 h2 fr cn1 cn2 : Nat) (cs : CompositionState) (pu : Option Nat)
    (skip : Nat) (o1 o2 wid x1 x2 y1 y2 : Nat) (extra : List Nat)
    (hextra : extra.length < 8) :
    read_segment
        ([0x50, 0x47, p1, p2, p3, p4, d1, d2, d3, d4, 0x16] ++
          writeU16 (19 + extra.length) ++
          ([w1, w2, h1, h2, fr, cn1, cn2, csByte cs] ++ puBytes pu skip ++
            [1, o1, o2, wid, 0x40, x1, x2, y1, y2] ++ extra)) =
      .ok (.PresentationComposition
        { pts := 65536 * (256 * p1 + p2) + (256 * p3 + p4),
          dts := 65536 * (256 * d1 + d2) + (256 * d3 + d4),
          width := 256 * w1 + w2, height := 256 * h1 + h2, frame_rate := fr,
          composition_number := 256 * cn1 + cn2, composition_state := cs,
          palette_update_id := pu,
          composition_objects :=
            [⟨256 * o1 + o2, wid, 256 * x1 + x2, 256 * y1 + y2, .None⟩] }, []) := by
  have hlen : ([w1, w2, h1, h2, fr, cn1, cn2, csByte cs] ++ puBytes pu skip ++
      [1, o1, o2, wid, 0x40, x1, x2, y1, y2] ++ extra).length = 19 + extra.length := by
    cases pu <;> simp [puBytes] <;> omega
  have hu16 := readU16_writeU16 (19 + extra.length) (by omega)
    ([w1, w2, h1, h2, fr, cn1, cn2, csByte cs] ++ puBytes pu skip ++
      [1, o1, o2, wid, 0x40, x1, x2, y1, y2] ++ extra)
  have hexact := readExact_len (19 + extra.length) _ hlen
  have hpcs := c7_parse_pcs (65536 * (256 * p1 + p2) + (256 * p3 + p4))
    (65536 * (256 * d1 + d2) + (256 * d3 + d4))
    w1 w2 h1 h2 fr cn1 cn2 cs pu skip o1 o2 wid x1 x2 y1 y2 extra hextra
  simp only [List.cons_append, List.nil_append] at hu16 hexact hpcs ⊢
  simp only [read_segment, bind, Except.bind, readU16_cons,
    readU32_cons, readU8_cons, hu16, hexact, hpcs]
  norm_num

/-- C7 witness: the quirk theorem applied to a concrete truncated-crop
segment (payload ends right after the `y` field). -/
theorem c7_truncated_crop_witness :
    ([] : List Nat).length < 8 ∧
      read_segment
          ([0x50, 0x47, 0, 0, 0, 0, 0, 0, 0, 0, 0x16] ++
            writeU16 (19 + ([] : List Nat).length) ++
            ([0, 100, 0, 50, 16, 0, 2, csByte .EpochStart] ++ puBytes none 0 ++
              [1, 0, 1, 1, 0x40, 0, 10, 0, 20] ++ [])) =
        .ok (.PresentationComposition
          { pts := 0, dts := 0, width := 100, height := 50, frame_rate := 16,
            composition_number := 2, composition_state := .EpochStart,
            palette_update_id := none,
            composition_objects := [⟨1, 1, 10, 20, .None⟩] }, []) :=
  ⟨by decide,
    c7_truncated_crop_yields_none 0 0 0 0 0 0 0 0 0 100 0 50 16 0 2
      .EpochStart none 0 0 1 1 0 10 0 20 [] (by decide)⟩

/-! ## Claim C8: the object-reassembly acceptance rules -/

/-- C8: in any assembler configuration that has seen its PCS and no end
segment yet, the object run is accepted only along `{Single}` or
`{Initial, Middle*, Final}`: a Single or Initial ODS arriving while the
sequence state is `Initial` or `Middle` fails `InvalidObjectSequence`; a
Middle or Final ODS arriving while the state is `Single` or `Final` fails
`InvalidObjectSequence`; and an End segment arriving while the state is
`Initial` or `Middle` fails `IncompleteObjectSequence`. -/
theorem c8_object_sequence_rules (st : AsmState)
    (p : segment.PresentationCompositionSegment)
    (hes : st.es = none) (hpcs : st.pcs = some p) :
    (∀ sods, (st.sequence = .Initial ∨ st.sequence = .Middle) →
        tryFromStep st (.SingleObjectDefinition sods) =
          some (.error .InvalidObjectSequence)) ∧
    (∀ iods, (st.sequence = .Initial ∨ st.sequence = .Middle) →
        tryFromStep st (.InitialObjectDefinition iods) =
          some (.error .InvalidObjectSequence)) ∧
    (∀ mods, (st.sequence = .Single ∨ st.sequence = .Final) →
        tryFromStep st (.MiddleObjectDefinition mods) =
          some (.error .InvalidObjectSequence)) ∧
    (∀ fods, (st.sequence = .Single ∨ st.sequence = .Final) →
        tryFromStep st (.FinalObjectDefinition fods) =
          some (.error .InvalidObjectSequence)) ∧
    (∀ es2, (st.sequence = .Initial ∨ st.sequence = .Middle) →
        tryFromStep st (.End es2) = some (.error .IncompleteObjectSequence)) := by
  refine ⟨?_, ?_, ?_, ?_, ?_⟩ <;> intro seg hseq <;>
    rcases hseq with hseq | hseq <;>
      simp [tryFromStep, hes, hpcs, hseq]

/-- C8 witness: the rules evaluated in a concrete mid-run state. -/
theorem c8_object_sequence_rules_witness :
    asmMidRun.es = none ∧ asmMidRun.pcs = some leadPcs ∧
      tryFromStep asmMidRun (.SingleObjectDefinition ⟨0, 0, 9, 0, 1, 1, []⟩) =
        some (.error .InvalidObjectSequence) ∧
      tryFromStep asmMidRun (.End ⟨0, 0⟩) =
        some (.error .IncompleteObjectSequence) :=
  ⟨rfl, rfl,
    (c8_object_sequence_rules asmMidRun leadPcs rfl rfl).1 _ (Or.inl rfl),
    (c8_object_sequence_rules asmMidRun leadPcs rfl rfl).2.2.2.2 _ (Or.inl rfl)⟩

/-! ## Claim C10: oversize payloads and the 16-bit size field -/

/-- The flattened palette-entry bytes measure five bytes per entry. -/
theorem pdsEntryBytes_length (entries : List segment.PaletteEntry) :
    ((entries.map pdsEntryBytes).flatten).length = 5 * entries.length := by
  induction entries with
  | nil => simp
  | cons e rest ih =>
    simp [pdsEntryBytes, writeU8, ih]
    ring

/-- C10: for every palette-definition segment with more than 13106 entries
the generated payload exceeds 65535 bytes, yet `write_segment` succeeds,
emitting a header size field equal to the payload length modulo 65536
followed by the full untruncated payload. -/
theorem c10_oversize_payload_truncated_size (pds : segment.PaletteDefinitionSegment)
    (h : 13106 < pds.entries.length) :
    segment.write_segment (.PaletteDefinition pds) =
      .ok (writeU16 0x5047 ++ writeU32 pds.pts ++ writeU32 pds.dts ++ writeU8 0x14 ++
        writeU16 ((2 + 5 * pds.entries.length) % 65536) ++
        (writeU8 pds.id ++ writeU8 pds.version ++
          (pds.entries.map pdsEntryBytes).flatten)) ∧
      (writeU8 pds.id ++ writeU8 pds.version ++
        (pds.entries.map pdsEntryBytes).flatten).length =
        2 + 5 * pds.entries.length ∧
      65535 < 2 + 5 * pds.entries.length := by
  have hlen : (writeU8 pds.id ++ writeU8 pds.version ++
      (pds.entries.map pdsEntryBytes).flatten).length =
      2 + 5 * pds.entries.length := by
    simp only [List.length_append, writeU8, List.length_cons, List.length_nil,
      pdsEntryBytes_length]
  refine ⟨?_, hlen, by omega⟩
  have hmod : writeU16 (2 + 5 * pds.entries.length) =
      writeU16 ((2 + 5 * pds.entries.length) % 65536) := by
    have h1 : (2 + 5 * pds.entries.length) % 65536 / 256 =
        (2 + 5 * pds.entries.length) / 256 % 256 := by
      rw [show (65536 : Nat) = 256 * 256 from rfl, Nat.mod_mul_right_div_self]
    have h2 : (2 + 5 * pds.entries.length) % 65536 % 256 =
        (2 + 5 * pds.entries.length) % 256 :=
      Nat.mod_mod_of_dvd _ (by norm_num)
    simp only [writeU16, h1, h2]
    simp [Nat.mod_mod_of_dvd]
  simp only [segment.write_segment, generate_pds, bind, Except.bind]
  rw [hlen, hmod]

/-- C10 witness: the truncated size field on a PDS with 13107 entries. -/
theorem c10_oversize_witness :
    13106 < pdsOversize.entries.length ∧
      (segment.write_segment (.PaletteDefinition pdsOversize) =
        .ok (writeU16 0x5047 ++ writeU32 pdsOversize.pts ++
          writeU32 pdsOversize.dts ++ writeU8 0x14 ++
          writeU16 ((2 + 5 * pdsOversize.entries.length) % 65536) ++
          (writeU8 pdsOversize.id ++ writeU8 pdsOversize.version ++
            (pdsOversize.entries.map pdsEntryBytes).flatten)) ∧
        (writeU8 pdsOversize.id ++ writeU8 pdsOversize.version ++
          (pdsOversize.entries.map pdsEntryBytes).flatten).length =
          2 + 5 * pdsOversize.entries.length ∧
        65535 < 2 + 5 * pdsOversize.entries.length) :=
  have h : 13106 < pdsOversize.entries.length := by
    rw [show pdsOversize.entries = List.replicate 13107 ⟨0, 16, 128, 128, 255⟩ from rfl,
      List.length_replicate]
    norm_num
  ⟨h, c10_oversize_payload_truncated_size pdsOversize h⟩
